import Mathlib

/-!
A shallow embedding of the transaction categorization and CSV-parsing core of
the PersonalFinanceApp repository (src/app/constants.py and
src/app/csv_parser.py), together with theorems checking the specification's
claims about it.

Modelling conventions:
* Python `str` is modelled by Lean `String`; the case and whitespace
  operations (`str.lower`, `str.title`, `str.strip`, `\s`, `\d`) are modelled
  character-wise over ASCII, which covers every string in the rule tables.
* Python `float` amounts are modelled by `Rat` (the parsers only compare
  signs and take absolute values, which are exact); the builtin `float()`
  string conversion and `parse_date` (datetime.strptime over five formats)
  are abstracted as function parameters `pf : String → Option Rat` and
  `pd : String → Option Nat`, where `none` models the ValueError that the
  per-row `except` clause catches.  `floatOfString` and `dateOfString` below
  are simple concrete instances used to run the model on concrete inputs.
* A `csv.DictReader` row is modelled as an association list from header name
  to cell value; a CSV payload is its first line plus its list of rows.
* A Python function that can raise to its caller is modelled with
  `Except`/`Option`; a Python dict literal is modelled by its entry list in
  source order, looked up with later-entries-win semantics.
-/

/-- One character of Python's `str.lower` (ASCII range). -/
def lowerChar (c : Char) : Char :=
  if 65 ≤ c.toNat ∧ c.toNat ≤ 90 then Char.ofNat (c.toNat + 32) else c

/-- One character of Python's `str.upper` (ASCII range), used by `str.title`. -/
def upperChar (c : Char) : Char :=
  if 97 ≤ c.toNat ∧ c.toNat ≤ 122 then Char.ofNat (c.toNat - 32) else c

/-- A cased character (ASCII letter): the word-boundary test of `str.title`. -/
def casedChar (c : Char) : Bool :=
  decide (65 ≤ c.toNat ∧ c.toNat ≤ 90) || decide (97 ≤ c.toNat ∧ c.toNat ≤ 122)

/-- Python whitespace (`str.strip` default set, regex `\s`), ASCII part. -/
def pySpaceChar (c : Char) : Bool :=
  [' ', '\t', '\n', '\r', '\x0b', '\x0c'].contains c

/-- Regex `\d` (ASCII digit). -/
def digitChar (c : Char) : Bool :=
  decide (48 ≤ c.toNat ∧ c.toNat ≤ 57)

/-- Regex class `[A-Z0-9]`. -/
def upperDigitChar (c : Char) : Bool :=
  decide (65 ≤ c.toNat ∧ c.toNat ≤ 90) || digitChar c

/-- `str.strip()` on a character list: drop whitespace from both ends. -/
def stripList (l : List Char) : List Char :=
  ((l.dropWhile pySpaceChar).reverse.dropWhile pySpaceChar).reverse

/-- Python `s.strip()`. -/
def pyStrip (s : String) : String := ⟨stripList s.data⟩

/-- Python `s.lower()`. -/
def pyLower (s : String) : String := ⟨s.data.map lowerChar⟩

/-- `str.title()` on a character list; the flag records whether the previous
character was cased (inside a word). -/
def titleList : Bool → List Char → List Char
  | _, [] => []
  | prevCased, c :: cs =>
    (if casedChar c then (if prevCased then lowerChar c else upperChar c) else c)
      :: titleList (casedChar c) cs

/-- Python `s.title()`. -/
def pyTitle (s : String) : String := ⟨titleList false s.data⟩

/-- Whether the first list is an initial segment of the second. -/
def leadsWith : List Char → List Char → Bool
  | [], _ => true
  | _ :: _, [] => false
  | a :: as, b :: bs => a == b && leadsWith as bs

/-- Substring occurrence of `needle` in a character list. -/
def containsSub (needle : List Char) : List Char → Bool
  | [] => needle.isEmpty
  | c :: rest => leadsWith needle (c :: rest) || containsSub needle rest

/-- Python `needle in hay` on strings. -/
def pyContains (hay needle : String) : Bool := containsSub needle.data hay.data

/-- Lookup in a Python dict literal given as its entry list in source order:
with duplicate keys the last entry wins, as in a Python dict literal. -/
def dictGet (m : List (String × String)) (k : String) : Option String :=
  (m.reverse.find? (fun p => p.1 == k)).map (·.2)

/-- Code-point lexicographic order on character lists (Python `<` on str). -/
def lexLe : List Char → List Char → Bool
  | [], _ => true
  | _ :: _, [] => false
  | a :: as, b :: bs =>
    if a.toNat < b.toNat then true
    else if b.toNat < a.toNat then false
    else lexLe as bs

/-- Python `<=` on strings. -/
def strLe (a b : String) : Bool := lexLe a.data b.data

/-- Insert into a `strLe`-sorted list, keeping it sorted. -/
def insertSorted (s : String) : List String → List String
  | [] => [s]
  | t :: ts => if strLe s t then s :: t :: ts else t :: insertSorted s ts

/-- Python `sorted` on a list of strings (insertion sort; the category lists
being sorted have pairwise distinct entries, so any correct sort agrees). -/
def sortedStrings (l : List String) : List String := l.foldr insertSorted []

/-- `CATEGORY_MAPPING` from src/app/constants.py, entries in source order.
The Python dict literal repeats the keys "other expense" and "other income";
a dict literal keeps the last value for a repeated key, which `dictGet`
reproduces. -/
def CATEGORY_MAPPING : List (String × String) := [
  ("other income", "Other Income"),
  ("side hustle", "Other Income"),
  ("tax refund", "Other Income"),
  ("paycheck", "Salary"),
  ("wage", "Salary"),
  ("payment/credit", "Other Income"),
  ("dining out", "Dining"),
  ("restaurants", "Dining"),
  ("food", "Groceries"),
  ("grocery", "Groceries"),
  ("gas & auto", "Gas & Auto"),
  ("automotive", "Gas & Auto"),
  ("fuel", "Gas & Auto"),
  ("online shopping", "Shopping"),
  ("retail", "Shopping"),
  ("streaming", "Subscriptions"),
  ("internet", "Subscriptions"),
  ("cable", "Subscriptions"),
  ("utility", "Utilities"),
  ("utilities", "Utilities"),
  ("electric", "Utilities"),
  ("water", "Utilities"),
  ("mortgage", "Rent"),
  ("lease", "Rent"),
  ("health", "Health & Fitness"),
  ("fitness", "Health & Fitness"),
  ("gym", "Health & Fitness"),
  ("medical", "Health & Fitness"),
  ("movies", "Entertainment"),
  ("concert", "Entertainment"),
  ("flight", "Travel"),
  ("hotel", "Travel"),
  ("school", "Education"),
  ("tuition", "Education"),
  ("credit card", "Credit Card Payment"),
  ("cc payment", "Credit Card Payment"),
  ("loan", "Loan Payment"),
  ("student loan", "Student Loan"),
  ("car", "Car Payment"),
  ("auto loan", "Car Payment"),
  ("mobile", "Phone"),
  ("cell phone", "Phone"),
  ("home", "Household"),
  ("furniture", "Household"),
  ("gift", "Gifts"),
  ("present", "Gifts"),
  ("other expense", "Other"),
  ("miscellaneous", "Other"),
  ("misc", "Other"),
  ("fun money", "Entertainment"),
  ("golf", "Entertainment"),
  ("grad school", "Education"),
  ("home & hygiene", "Household"),
  ("netflix", "Subscriptions"),
  ("spotify", "Subscriptions"),
  ("phone storage", "Subscriptions"),
  ("other expense", "Other Expense"),
  ("other income", "Other Income")]

/-- `EXPENSE_CATEGORIES` from src/app/constants.py. -/
def EXPENSE_CATEGORIES : List String := [
  "Dining", "Entertainment", "Gas & Auto", "Gifts", "Education", "Groceries",
  "Health & Fitness", "Household", "Subscriptions", "Phone", "Rent",
  "Shopping", "Student Loan", "Travel", "Car Payment", "Utilities",
  "Other Expense"]

/-- `INCOME_CATEGORIES` from src/app/constants.py. -/
def INCOME_CATEGORIES : List String := [
  "Salary", "Interest", "Refund", "Gift", "Other Income"]

/-- `ALL_CATEGORIES = sorted(EXPENSE_CATEGORIES + INCOME_CATEGORIES)`. -/
def ALL_CATEGORIES : List String :=
  sortedStrings (EXPENSE_CATEGORIES ++ INCOME_CATEGORIES)

/-- `STORE_PATTERNS` from src/app/constants.py, in source (declaration)
order; pattern matching scans this order and the first hit wins. -/
def STORE_PATTERNS : List (String × String) := [
  ("target", "Target"),
  ("walmart", "Walmart"),
  ("wlmt", "Walmart"),
  ("wmt", "Walmart"),
  ("costco", "Costco"),
  ("sam's club", "Sam's Club"),
  ("sams club", "Sam's Club"),
  ("whole foods", "Whole Foods"),
  ("trader joe", "Trader Joe's"),
  ("aldi", "Aldi"),
  ("kroger", "Kroger"),
  ("publix", "Publix"),
  ("safeway", "Safeway"),
  ("amazon", "Amazon"),
  ("amzn", "Amazon"),
  ("ebay", "eBay"),
  ("etsy", "Etsy"),
  ("mcdonald", "McDonald's"),
  ("mcdonalds", "McDonald's"),
  ("burger king", "Burger King"),
  ("wendy", "Wendy's"),
  ("taco bell", "Taco Bell"),
  ("chipotle", "Chipotle"),
  ("subway", "Subway"),
  ("panera", "Panera Bread"),
  ("chick-fil-a", "Chick-fil-A"),
  ("chick fil a", "Chick-fil-A"),
  ("kfc", "KFC"),
  ("popeyes", "Popeyes"),
  ("starbucks", "Starbucks"),
  ("dunkin", "Dunkin'"),
  ("panda express", "Panda Express"),
  ("olive garden", "Olive Garden"),
  ("applebee", "Applebee's"),
  ("red lobster", "Red Lobster"),
  ("buffalo wild", "Buffalo Wild Wings"),
  ("shell", "Shell"),
  ("chevron", "Chevron"),
  ("exxon", "Exxon"),
  ("mobil", "Mobil"),
  ("bp", "BP"),
  ("texaco", "Texaco"),
  ("circle k", "Circle K"),
  ("7-eleven", "7-Eleven"),
  ("7 eleven", "7-Eleven"),
  ("costco gas", "Costco Gas"),
  ("netflix", "Netflix"),
  ("spotify", "Spotify"),
  ("hulu", "Hulu"),
  ("disney", "Disney+"),
  ("apple.com/bill", "Apple"),
  ("apple music", "Apple Music"),
  ("icloud", "iCloud"),
  ("dropbox", "Dropbox"),
  ("google storage", "Google One"),
  ("uber", "Uber"),
  ("lyft", "Lyft"),
  ("uber eats", "Uber Eats"),
  ("doordash", "DoorDash"),
  ("grubhub", "GrubHub"),
  ("verizon", "Verizon"),
  ("at&t", "AT&T"),
  ("t-mobile", "T-Mobile"),
  ("sprint", "Sprint"),
  ("xfinity", "Xfinity"),
  ("comcast", "Comcast"),
  ("cvs", "CVS"),
  ("walgreens", "Walgreens"),
  ("rite aid", "Rite Aid"),
  ("pharmacy", "Pharmacy"),
  ("planet fitness", "Planet Fitness"),
  ("la fitness", "LA Fitness"),
  ("24 hour", "24 Hour Fitness"),
  ("cowboy jacks", "Cowboy Jacks"),
  ("byerlys", "Lunds & Byerlys"),
  ("wm supercenter", "Walmart"),
  ("wal-mart", "Walmart"),
  ("wholefds", "Whole Foods"),
  ("wholefoods", "Whole Foods"),
  ("kohls", "Kohls")]

/-- `STORE_EXACT_MATCH` from src/app/constants.py. -/
def STORE_EXACT_MATCH : List (String × String) := [
  ("tsq", "Times Square"),
  ("sq", "Square"),
  ("pypl", "PayPal"),
  ("amzn", "Amazon")]

/-- The suffix list of `normalize_store` step 3. -/
def BUSINESS_SUFFIXES : List String :=
  ["Inc", "LLC", "Corp", "Ltd", "Co", "Company", "US"]

/-!
Each `re.sub(..., '', s)` below removes the pattern's matches in one
left-to-right scan.  The scanners take a fuel argument, initialized to the
list length (an upper bound on the number of scan steps, since every step
consumes at least one character), which makes the recursion structural, so
that applications to concrete strings reduce inside the kernel.  The fuel
never reaches zero on a nonempty list.
-/

/-- Scanner of `re.sub(r'\*[A-Z0-9]+', '', s)`: drop every `*` followed by a
nonempty maximal run of uppercase letters or digits. -/
def subStarCodeF : Nat → List Char → List Char
  | _, [] => []
  | 0, l => l
  | fuel + 1, c :: rest =>
    if c = '*' ∧ rest.takeWhile upperDigitChar ≠ [] then
      subStarCodeF fuel (rest.dropWhile upperDigitChar)
    else c :: subStarCodeF fuel rest

/-- `re.sub(r'\*[A-Z0-9]+', '', s)`. -/
def subStarCode (l : List Char) : List Char := subStarCodeF l.length l

/-- Scanner of `re.sub(r'#\d+', '', s)`: drop every `#` followed by a
nonempty maximal digit run. -/
def subHashNumF : Nat → List Char → List Char
  | _, [] => []
  | 0, l => l
  | fuel + 1, c :: rest =>
    if c = '#' ∧ rest.takeWhile digitChar ≠ [] then
      subHashNumF fuel (rest.dropWhile digitChar)
    else c :: subHashNumF fuel rest

/-- `re.sub(r'#\d+', '', s)`. -/
def subHashNum (l : List Char) : List Char := subHashNumF l.length l

/-- Scanner of `re.sub(r'\s+\d{4,}', '', s)`: drop a whitespace run followed
by four or more digits (both quantifiers greedy; when the digit run after
the maximal whitespace run is shorter than four, no match can start inside
the run either). -/
def subWsLongNumF : Nat → List Char → List Char
  | _, [] => []
  | 0, l => l
  | fuel + 1, c :: rest =>
    if pySpaceChar c ∧
        4 ≤ ((rest.dropWhile pySpaceChar).takeWhile digitChar).length then
      subWsLongNumF fuel ((rest.dropWhile pySpaceChar).dropWhile digitChar)
    else c :: subWsLongNumF fuel rest

/-- `re.sub(r'\s+\d{4,}', '', s)`. -/
def subWsLongNum (l : List Char) : List Char := subWsLongNumF l.length l

/-- Scanner of `re.sub(r'Mktpl[ace]*\s*', '', s)`. -/
def subMktplF : Nat → List Char → List Char
  | _, [] => []
  | 0, l => l
  | fuel + 1, c :: rest =>
    if leadsWith ['M', 'k', 't', 'p', 'l'] (c :: rest) then
      subMktplF fuel ((((c :: rest).drop 5).dropWhile
        (fun x => x = 'a' || x = 'c' || x = 'e')).dropWhile pySpaceChar)
    else c :: subMktplF fuel rest

/-- `re.sub(r'Mktpl[ace]*\s*', '', s)`. -/
def subMktpl (l : List Char) : List Char := subMktplF l.length l

/-- Scanner of `re.sub(r'Pmts?\s*', '', s)`. -/
def subPmtsF : Nat → List Char → List Char
  | _, [] => []
  | 0, l => l
  | fuel + 1, c :: rest =>
    if leadsWith ['P', 'm', 't'] (c :: rest) then
      subPmtsF fuel ((if ((c :: rest).drop 3).head? = some 's' then
          (c :: rest).drop 4 else (c :: rest).drop 3).dropWhile pySpaceChar)
    else c :: subPmtsF fuel rest

/-- `re.sub(r'Pmts?\s*', '', s)`. -/
def subPmts (l : List Char) : List Char := subPmtsF l.length l

/-- Scanner of `re.sub(r'.com', '', s)`: regex `.` matches any character
except a newline, so this drops any character followed by the letters
`com`. -/
def subDotComF : Nat → List Char → List Char
  | _, [] => []
  | 0, l => l
  | fuel + 1, c :: rest =>
    if c ≠ '\n' ∧ leadsWith ['c', 'o', 'm'] rest then
      subDotComF fuel (rest.drop 3)
    else c :: subDotComF fuel rest

/-- `re.sub(r'.com', '', s)`. -/
def subDotCom (l : List Char) : List Char := subDotComF l.length l

/-- Scanner of `re.sub(r'.Com', '', s)`. -/
def subDotComCapF : Nat → List Char → List Char
  | _, [] => []
  | 0, l => l
  | fuel + 1, c :: rest =>
    if c ≠ '\n' ∧ leadsWith ['C', 'o', 'm'] rest then
      subDotComCapF fuel (rest.drop 3)
    else c :: subDotComCapF fuel rest

/-- `re.sub(r'.Com', '', s)`. -/
def subDotComCap (l : List Char) : List Char := subDotComCapF l.length l

/-- `re.sub(rf'\s+{suffix}\.?$', '', s, flags=re.IGNORECASE)`: drop a trailing
business suffix (with an optional final period) together with the whitespace
run before it.  Anchored at the end, so it is computed on the reversed list;
a final `.` must be consumed by `\.?` for `$` to match. -/
def stripBizSuffix (sfx : List Char) (l : List Char) : List Char :=
  let r := l.reverse
  let r1 := if r.head? = some '.' then r.drop 1 else r
  if leadsWith ((sfx.map lowerChar).reverse) (r1.map lowerChar) then
    let r2 := r1.drop sfx.length
    if r2.head?.elim false pySpaceChar then (r2.dropWhile pySpaceChar).reverse
    else l
  else l

/-- Scanner of `re.sub(r'\s+', ' ', s)`: collapse each whitespace run to a
single space. -/
def collapseWsF : Nat → List Char → List Char
  | _, [] => []
  | 0, l => l
  | fuel + 1, c :: rest =>
    if pySpaceChar c then ' ' :: collapseWsF fuel (rest.dropWhile pySpaceChar)
    else c :: collapseWsF fuel rest

/-- `re.sub(r'\s+', ' ', s)`. -/
def collapseWs (l : List Char) : List Char := collapseWsF l.length l

/-- `normalize_store` from src/app/constants.py. -/
def normalize_store (store : String) : String :=
  if store = "" then ""
  else
    let original := pyStrip store
    let store_lower := pyLower original
    match dictGet STORE_EXACT_MATCH store_lower with
    | some v => v
    | none =>
      match STORE_PATTERNS.find? (fun p => pyContains store_lower p.1) with
      | some p => p.2
      | none =>
        let cleaned := original.data
        let cleaned := subStarCode cleaned
        let cleaned := subHashNum cleaned
        let cleaned := subWsLongNum cleaned
        let cleaned := subMktpl cleaned
        let cleaned := subPmts cleaned
        let cleaned := subDotCom cleaned
        let cleaned := subDotComCap cleaned
        let cleaned := BUSINESS_SUFFIXES.foldl
          (fun acc sfx => stripBizSuffix sfx.data acc) cleaned
        let cleaned := collapseWs cleaned
        let cleaned := stripList cleaned
        if cleaned ≠ [] then pyTitle ⟨cleaned⟩ else pyTitle original

/-- `any(s in store_lower for s in [...])`. -/
def anyIn (hay : String) (pats : List String) : Bool :=
  pats.any (fun s => pyContains hay s)

/-- `categorize_by_store` from src/app/constants.py; `none` models the
Python `None` return (every rule value is a nonempty string). -/
def categorize_by_store (store_name : String) : Option String :=
  let store_lower := pyLower store_name
  if anyIn store_lower ["hyvee", "hy-vee", "target", "walmart", "costco",
      "whole foods", "trader joe", "kroger", "safeway", "aldi", "publix",
      "lunds", "byerlys"] then some "Groceries"
  else if anyIn store_lower ["jimmy john", "scoreboard", "jersey mike",
      "culvers", "culver's", "cuisine", "mcdonald", "burger king",
      "taco bell", "chipotle", "subway", "kfc", "wendys", "chick-fil-a",
      "popeyes", "canes", "cane's"] then some "Dining"
  else if anyIn store_lower ["piada", "kitchen", "mexican", "burger", "pub",
      "tavern", "taqueria", "starbucks", "poke", "restaurant", "cafe",
      "coffee", "pizza", "panera", "spitz", "bistro", "taphouse",
      "tap house", "tap room", "taco", "tacos"] then some "Dining"
  else if anyIn store_lower ["kwik trip", "marathon", "speedway", "holliday",
      "holiday", "shell", "chevron", "exxon", "mobil", "bp", "gas", "fuel",
      "costco gas", "tires"] then some "Gas & Auto"
  else if anyIn store_lower ["netflix", "spotify", "hulu", "disney",
      "apple music", "icloud", "dropbox", "apple"] then some "Subscriptions"
  else if anyIn store_lower ["records", "antiques", "amazon", "ebay", "etsy",
      "patina", "sierra", "kohls", "hollister", "american eagle",
      "lulu lemon"] then some "Shopping"
  else if anyIn store_lower ["cvs", "walgreens", "pharmacy", "gym", "fitness",
      "planet", "planet fit", "planet fitness"] then some "Health & Fitness"
  else if anyIn store_lower ["xcel", "energy", "centerpoint", "center point",
      "quantum fiber", "verizon", "at&t", "t-mobile", "sprint", "xfinity",
      "comcast"] then some "Utilities"
  else if anyIn store_lower ["uber", "lyft", "plane", "delta", "airline",
      "sun country"] then some "Travel"
  else if anyIn store_lower ["liquor", "bar", "golf", "course", "club",
      "cider", "cowboy jacks", "wine", "total wine", "beer", "alcohol",
      "winery", "cidery"] then some "Entertainment"
  else none

/-- `categorize_by_keywords` from src/app/constants.py. -/
def categorize_by_keywords (description transaction_type : String) :
    Option String :=
  let desc_lower := pyLower description
  let type_lower := pyLower transaction_type
  if pyContains desc_lower "interest" || pyContains type_lower "interest" then
    some "Interest"
  else if anyIn desc_lower ["payroll", "salary", "direct deposit", "best buy",
      "bby", "northern", "nte", "pcb", "post consumer brand"] then
    some "Salary"
  else if anyIn desc_lower ["rent", "apartment", "housing", "alcott",
      "whitecap", "nolo"] then some "Rent"
  else if anyIn desc_lower ["electric", "water", "utility", "gas bill",
      "internet", "xcel", "centerpoint", "quantum"] then some "Utilities"
  else if anyIn desc_lower ["student loan", "navient", "great lakes",
      "fedloan"] then some "Student Loan"
  else if anyIn desc_lower ["auto loan", "car payment", "vehicle loan",
      "truck loan", "southpoint"] then some "Car Payment"
  else none

/-- `suggest_category` from src/app/constants.py.  The Python code tests the
stage results for truthiness (`if category:`); every rule category is a
nonempty string, so `none` is the only falsy stage result. -/
def suggest_category (store description transaction_type : String) : String :=
  match categorize_by_store store with
  | some category => category
  | none =>
    match categorize_by_keywords description transaction_type with
    | some category => category
    | none => "Other Expense"

/-- `get_automatic_tags` from src/app/constants.py.  The guard of the last
rule is written `category == "Groceries" | category == "Dining"`; `|` binds
tighter than `==`, so Python evaluates `"Groceries" | category` first, and
`|` on two `str` operands raises TypeError.  Every call therefore raises
before reaching the `return`, which the model renders as `Except.error`. -/
def get_automatic_tags (store category : String) (amount : Rat)
    (description : String) : Except String (List String) :=
  let tags : List String := []
  let store_lower := pyLower store
  let desc_lower := pyLower description
  let tags := if category = "Subscriptions" then tags ++ ["recurring"] else tags
  let tags := if anyIn store_lower ["golf", "pga", "course", "club"] ||
      anyIn desc_lower ["golf", "tee time", "club", "course"] then
    tags ++ ["golf"] else tags
  let tags := if anyIn store_lower ["airline", "hotel", "airbnb",
      "booking.com", "expedia"] then tags ++ ["vacation"] else tags
  let _ := tags
  let _ := amount
  Except.error "TypeError: unsupported operand type(s) for |: 'str' and 'str'"

/-- `normalize_category` from src/app/constants.py. -/
def normalize_category (category : String) : String :=
  if category = "" then "Other Expense"
  else
    let category_lower := pyStrip (pyLower category)
    match dictGet CATEGORY_MAPPING category_lower with
    | some v => v
    | none =>
      match ALL_CATEGORIES.find? (fun std => category_lower == pyLower std) with
      | some std => std
      | none => pyTitle category

/-- `is_valid_category` from src/app/constants.py. -/
def is_valid_category (category : String) : Bool :=
  if category = "" then false
  else ALL_CATEGORIES.contains (normalize_category category)

/-- `backup_categorize` from src/app/csv_parser.py. -/
def backup_categorize (store description transaction_type : String) : String :=
  let text := pyLower (store ++ " " ++ description)
  if pyContains text "salary" || pyContains text "payroll" ||
      pyContains text "direct deposit" then "Salary"
  else if pyContains text "interest" then "Interest"
  else if pyContains text "refund" || pyContains text "reimbursement" then
    "Refund"
  else if pyContains text "transfer" && transaction_type == "income" then
    "Transfer"
  else if anyIn text ["restaurant", "cafe", "coffee", "starbucks", "mcdonald",
      "burger", "pizza", "taco", "chipotle", "chick-fil", "culver", "wendy",
      "subway", "panera", "buffalo wild", "applebee", "olive garden", "bar",
      "pub", "grill", "tavern", "brewery", "doordash", "grubhub", "uber eats",
      "dining"] then "Dining"
  else if anyIn text ["grocery", "hy-vee", "trader joe", "whole foods",
      "aldi", "kroger", "target", "costco", "walmart", "supermarket",
      "food"] then "Groceries"
  else if anyIn text ["gas", "fuel", "shell", "exxon", "mobil", "chevron",
      "bp", "marathon", "speedway", "kwik trip", "holiday"] then "Gas"
  else if anyIn text ["amazon", "ebay", "etsy", "store", "shop", "retail",
      "mall", "clothing", "apparel"] then "Shopping"
  else if anyIn text ["netflix", "spotify", "hulu", "disney", "hbo",
      "subscription", "prime", "youtube", "internet", "phone bill"] then
    "Subscriptions"
  else if anyIn text ["electric", "water", "gas bill", "utility", "power",
      "energy"] then "Utilities"
  else if pyContains text "rent" || pyContains text "lease" ||
      pyContains text "mortgage" then "Rent"
  else if anyIn text ["gym", "fitness", "doctor", "hospital", "pharmacy",
      "medical", "dental", "health", "clinic"] then "Health & Fitness"
  else if anyIn text ["movie", "cinema", "theater", "concert", "ticket",
      "game", "entertainment"] then "Entertainment"
  else if anyIn text ["airline", "hotel", "airbnb", "uber", "lyft", "taxi",
      "rental car", "flight", "travel"] then "Travel"
  else if pyContains text "school" || pyContains text "education" ||
      pyContains text "tuition" || pyContains text "university" then
    "Education"
  else if pyContains text "credit card" || pyContains text "payment" then
    "Credit Card Payment"
  else if pyContains text "loan" then "Loan Payment"
  else if pyContains text "atm" || pyContains text "cash" ||
      pyContains text "withdrawal" then "ATM/Cash"
  else "Other"

/-- One `csv.DictReader` row: header name to cell value, in column order. -/
def Row := List (String × String)

/-- First value stored in the row under a header name (`key in row` is its
`isSome`). -/
def rowFind? (r : Row) (k : String) : Option String :=
  (r.find? (fun p => p.1 == k)).map (·.2)

/-- Python `row.get(k, d)`. -/
def rowGetD (r : Row) (k d : String) : String := (rowFind? r k).getD d

/-- `s.replace(",", "").replace("$", "")`, applied to amount cells before
`float()`. -/
def cleanAmount (s : String) : String :=
  ⟨(s.data.filter (fun c => ¬(c = ','))).filter (fun c => ¬(c = '$'))⟩

/-- A `ParsedTransaction` dict as the parsers build it (src/app/csv_parser.py
and src/app/schemas_csv.py).  The date is whatever `parse_date` produced. -/
structure Transaction where
  date : Nat
  store : String
  description : String
  original_type : String
  amount : Rat
  type : String
  suggested_category : String
deriving DecidableEq, Repr

/-- The body of the row loop of `parse_sofi_csv`: `none` when the row is
skipped, by the pending-status filter or by the `except` clause catching a
`float()`/`parse_date` error. -/
def parseSofiRow (pf : String → Option Rat) (pd : String → Option Nat)
    (row : Row) : Option Transaction :=
  let date_str := pyStrip (rowGetD row "Date" "")
  let original_description := pyStrip (rowGetD row "Description" "")
  let trans_type := pyStrip (rowGetD row "Type" "")
  let amount_str := pyStrip (rowGetD row "Amount" "0")
  let status := pyStrip (rowGetD row "Status" "")
  if pyLower status ≠ "posted" then none
  else
    match pf (cleanAmount amount_str) with
    | none => none
    | some amount =>
      let income_expense_type := if amount < 0 then "expense" else "income"
      let amount := if amount < 0 then abs amount else amount
      let store := normalize_store original_description
      let suggested_category :=
        suggest_category store original_description trans_type
      let suggested_category := normalize_category suggested_category
      let suggested_category :=
        if suggested_category = "" then
          backup_categorize store original_description income_expense_type
        else suggested_category
      let suggested_category :=
        if suggested_category = "" then
          if income_expense_type = "income" then "Other Income" else "Other"
        else suggested_category
      match pd date_str with
      | none => none
      | some d =>
        some ⟨d, store, "", trans_type, amount, income_expense_type,
          suggested_category⟩

/-- `parse_sofi_csv` from src/app/csv_parser.py (the `account_type` argument
is accepted and unused, as in the source). -/
def parse_sofi_csv (pf : String → Option Rat) (pd : String → Option Nat)
    (rows : List Row) (account_type : String := "savings") :
    List Transaction :=
  let _ := account_type
  rows.filterMap (parseSofiRow pf pd)

/-- The body of the row loop of `parse_capital_one_csv`. -/
def parseCapitalOneRow (pf : String → Option Rat) (pd : String → Option Nat)
    (row : Row) : Option Transaction :=
  let date_str := pyStrip (rowGetD row "Transaction Date" "")
  let original_description := pyStrip (rowGetD row "Description" "")
  let debit_str := pyStrip (rowGetD row "Debit" "")
  let credit_str := pyStrip (rowGetD row "Credit" "")
  let original_category := pyStrip (rowGetD row "Category" "")
  let amountAndType : Option (Rat × String) :=
    if debit_str ≠ "" then (pf (cleanAmount debit_str)).map (⟨·, "expense"⟩)
    else if credit_str ≠ "" then
      (pf (cleanAmount credit_str)).map (⟨·, "income"⟩)
    else none
  match amountAndType with
  | none => none
  | some (amount, income_expense_type) =>
    let store := normalize_store original_description
    if pyContains (pyLower original_description) "autopay" ||
        pyContains (pyLower original_description)
          "capital one autopay pymt" then none
    else
      let suggested_category :=
        suggest_category store original_description original_category
      let suggested_category := normalize_category suggested_category
      let suggested_category :=
        if suggested_category = "" then
          backup_categorize store original_description income_expense_type
        else suggested_category
      let suggested_category :=
        if suggested_category = "" then
          if income_expense_type = "income" then "Other Income" else "Other"
        else suggested_category
      match pd date_str with
      | none => none
      | some d =>
        some ⟨d, store, "", original_category, amount, income_expense_type,
          suggested_category⟩

/-- `parse_capital_one_csv` from src/app/csv_parser.py. -/
def parse_capital_one_csv (pf : String → Option Rat)
    (pd : String → Option Nat) (rows : List Row) : List Transaction :=
  rows.filterMap (parseCapitalOneRow pf pd)

/-- A value of the `column_mapping` dict: a string, a boolean
(`use_two_columns`), or Python `None`. -/
inductive CMVal where
  | null : CMVal
  | str : String → CMVal
  | bool : Bool → CMVal
deriving DecidableEq, Repr

/-- Python truthiness of a `column_mapping` value. -/
def CMVal.truthy : CMVal → Bool
  | .null => false
  | .str s => s ≠ ""
  | .bool b => b

/-- The `column_mapping` dict: entries in insertion order. -/
def ColumnMapping := List (String × CMVal)

/-- `column_mapping.get(k)` (default `None`; last entry wins on duplicates). -/
def cmGet (m : ColumnMapping) (k : String) : CMVal :=
  ((m.reverse.find? (fun p => p.1 == k)).map (·.2)).getD .null

/-- `column_mapping.get(k, d)`. -/
def cmGetD (m : ColumnMapping) (k : String) (d : CMVal) : CMVal :=
  ((m.reverse.find? (fun p => p.1 == k)).map (·.2)).getD d

/-- `row.get(col, d)` where `col` is a `column_mapping` value: CSV row keys
are strings, so a `None` or boolean key is never present and yields the
default. -/
def rowGetV (r : Row) (col : CMVal) (d : String) : String :=
  match col with
  | .str s => rowGetD r s d
  | _ => d

/-- `col in row` for a `column_mapping` value used as a key. -/
def rowHasV (r : Row) (col : CMVal) : Bool :=
  match col with
  | .str s => (rowFind? r s).isSome
  | _ => false

/-- The body of the row loop of `parse_generic_csv`, taking the column
values already extracted from the mapping.  `none` models both `continue`
and the `except` clause catching a per-row error (including the
`raise ValueError("Amount column is required for single-column format")`,
which the `try` of the row loop swallows). -/
def parseGenericRow (pf : String → Option Rat) (pd : String → Option Nat)
    (date_col amount_col debit_col credit_col store_col description_col
      use_two_cols : CMVal) (row : Row) : Option Transaction :=
  let date_str := pyStrip (rowGetV row date_col "")
  if date_str = "" then none
  else
    match pd date_str with
    | none => none
    | some trans_date =>
      let amountAndType : Option (Rat × String) :=
        if use_two_cols.truthy then
          let debit_str :=
            if debit_col.truthy then pyStrip (rowGetV row debit_col "") else ""
          let credit_str :=
            if credit_col.truthy then pyStrip (rowGetV row credit_col "")
            else ""
          if debit_str ≠ "" then
            (pf (cleanAmount debit_str)).map (⟨·, "expense"⟩)
          else if credit_str ≠ "" then
            (pf (cleanAmount credit_str)).map (⟨·, "income"⟩)
          else none
        else
          if ¬ amount_col.truthy then none
          else
            let amount_str := pyStrip (rowGetV row amount_col "")
            if amount_str = "" then none
            else
              (pf (cleanAmount amount_str)).map (fun a =>
                if a < 0 then ⟨abs a, "expense"⟩ else ⟨a, "income"⟩)
      match amountAndType with
      | none => none
      | some (amount, income_expense_type) =>
        let raw_store :=
          if store_col.truthy && rowHasV row store_col then
            pyStrip (rowGetV row store_col "")
          else ""
        let raw_description :=
          if description_col.truthy && rowHasV row description_col then
            pyStrip (rowGetV row description_col "")
          else ""
        let raw_store :=
          if raw_store = "" ∧ raw_description ≠ "" then raw_description
          else if raw_store = "" then "Unknown Store"
          else raw_store
        let store := normalize_store raw_store
        let suggested_category :=
          normalize_category (suggest_category store raw_description "")
        let suggested_category :=
          if suggested_category = "" then
            backup_categorize store raw_description income_expense_type
          else suggested_category
        let suggested_category :=
          if suggested_category = "" then
            if income_expense_type = "income" then "Other Income" else "Other"
          else suggested_category
        some ⟨trans_date, store,
          if description_col.truthy then raw_description else "", "",
          amount, income_expense_type, suggested_category⟩

/-- `parse_generic_csv` from src/app/csv_parser.py.  The error is the
`ValueError("Date column is required")` raised before the row loop; the
`category_column` entry is read into a local and never used. -/
def parse_generic_csv (pf : String → Option Rat) (pd : String → Option Nat)
    (column_mapping : ColumnMapping) (rows : List Row) :
    Except String (List Transaction) :=
  let date_col := cmGet column_mapping "date_column"
  let amount_col := cmGet column_mapping "amount_column"
  let debit_col := cmGet column_mapping "debit_column"
  let credit_col := cmGet column_mapping "credit_column"
  let store_col := cmGet column_mapping "store_column"
  let category_col := cmGet column_mapping "category_column"
  let description_col := cmGet column_mapping "description_column"
  let use_two_cols := cmGetD column_mapping "use_two_columns" (.bool false)
  let _ := category_col
  if ¬ date_col.truthy then Except.error "Date column is required"
  else Except.ok (rows.filterMap (parseGenericRow pf pd date_col amount_col
    debit_col credit_col store_col description_col use_two_cols))

/-- A CSV payload as the parsers consume it: the first physical line
(`content.split("\n")[0]`, read by `detect_bank_type`) and the rows that
`csv.DictReader` yields from it. -/
structure CSVContent where
  firstLine : String
  rows : List Row

/-- `detect_bank_type` from src/app/csv_parser.py. -/
def detect_bank_type (content : CSVContent) : String :=
  let first_line := pyLower content.firstLine
  if pyContains first_line "card no." ||
      (pyContains first_line "debit" && pyContains first_line "credit") then
    "capital_one"
  else if pyContains first_line "current balance" &&
      pyContains first_line "status" then "sofi"
  else "unknown"

/-- Python truthiness of the `column_mapping` dict itself: an empty dict is
falsy even though it is not `None`. -/
def cmTruthy (m : ColumnMapping) : Bool :=
  match m with
  | [] => false
  | _ => true

/-- The bank-specific branch of `parse_csv` (everything after the
`if column_mapping:` test). -/
def parse_csv_bank (pf : String → Option Rat) (pd : String → Option Nat)
    (content : CSVContent) (bank_type : Option String) :
    Except String (String × List Transaction) :=
  let bt := match bank_type with
    | none => detect_bank_type content
    | some b => if b = "auto" then detect_bank_type content else b
  if bt = "capital_one" then
    Except.ok (bt, parse_capital_one_csv pf pd content.rows)
  else if bt = "sofi" ∨ bt = "sofi_savings" ∨ bt = "sofi_checking" then
    Except.ok (bt, parse_sofi_csv pf pd content.rows bt)
  else if bt = "unknown" then
    Except.error "Unable to auto-detect bank type. Please use column mapping."
  else Except.error ("Unknown or unsupported bank type: " ++ bt)

/-- `parse_csv` from src/app/csv_parser.py.  `bank_type = none` models the
Python default `None`; `column_mapping = none` models `None`, and the
`if column_mapping:` truthiness test also sends an empty dict to the
bank-specific branch. -/
def parse_csv (pf : String → Option Rat) (pd : String → Option Nat)
    (content : CSVContent) (bank_type : Option String)
    (column_mapping : Option ColumnMapping) :
    Except String (String × List Transaction) :=
  match column_mapping with
  | some m =>
    if cmTruthy m then
      (parse_generic_csv pf pd m content.rows).map (fun ts => ("generic", ts))
    else parse_csv_bank pf pd content bank_type
  | none => parse_csv_bank pf pd content bank_type

instance {ε α : Type} [DecidableEq ε] [DecidableEq α] :
    DecidableEq (Except ε α) := fun a b =>
  match a, b with
  | .error e, .error f =>
    if h : e = f then isTrue (by rw [h]) else isFalse (by simp [h])
  | .error _, .ok _ => isFalse (by simp)
  | .ok _, .error _ => isFalse (by simp)
  | .ok a, .ok b =>
    if h : a = b then isTrue (by rw [h]) else isFalse (by simp [h])

/-- The value of a digit string. -/
def natOfDigits (l : List Char) : Nat :=
  l.foldl (fun n c => 10 * n + (c.toNat - 48)) 0

/-- The rational `num / den` built directly in reduced form (numerator and
denominator divided by their gcd), so that applications to concrete numbers
evaluate by kernel reduction, which the `Rat` field arithmetic would not. -/
def ratOfScaled (num : Int) (den : Nat) : Rat :=
  let g := Nat.gcd num.natAbs den
  let n := num / (g : Int)
  let d := den / g
  if h : d ≠ 0 ∧ n.natAbs.Coprime d then ⟨n, d, h.1, h.2⟩ else 0

/-- A small concrete instance of the abstracted `float()` parameter: decimal
literals with an optional sign and fraction, as found in amount cells.  The
exact value is kept as a rational; only its sign and absolute value are used
by the parsers. -/
def floatOfString (s : String) : Option Rat :=
  let signAndRest : Int × List Char :=
    match s.data with
    | '-' :: t => (-1, t)
    | '+' :: t => (1, t)
    | t => (1, t)
  let intPart := signAndRest.2.takeWhile digitChar
  let rest2 := signAndRest.2.dropWhile digitChar
  match rest2 with
  | [] =>
    if intPart = [] then none
    else some (ratOfScaled (signAndRest.1 * natOfDigits intPart) 1)
  | '.' :: frac =>
    let fracDigits := frac.takeWhile digitChar
    if frac.dropWhile digitChar ≠ [] then none
    else if intPart = [] ∧ fracDigits = [] then none
    else some (ratOfScaled
      (signAndRest.1 *
        (natOfDigits intPart * 10 ^ fracDigits.length + natOfDigits fracDigits))
      (10 ^ fracDigits.length))
  | _ => none

/-- A small concrete instance of the abstracted `parse_date` parameter: the
first strptime format `%Y-%m-%d`, encoding the date as yyyymmdd. -/
def dateOfString (s : String) : Option Nat :=
  match s.data with
  | [y1, y2, y3, y4, '-', m1, m2, '-', d1, d2] =>
    if [y1, y2, y3, y4, m1, m2, d1, d2].all digitChar then
      some (natOfDigits [y1, y2, y3, y4] * 10000 +
        natOfDigits [m1, m2] * 100 + natOfDigits [d1, d2])
    else none
  | _ => none

theorem toNat_ofNat_valid {n : Nat} (h : n < 55296) : (Char.ofNat n).toNat = n := by
  unfold Char.ofNat
  split
  · rfl
  · rename_i hcon
    exact absurd (Or.inl h) hcon

theorem charEq_of_toNat {c d : Char} (h : c.toNat = d.toNat) : c = d :=
  Char.ext (UInt32.ext h)

theorem toNat_lowerChar (c : Char) : (lowerChar c).toNat =
    if 65 ≤ c.toNat ∧ c.toNat ≤ 90 then c.toNat + 32 else c.toNat := by
  unfold lowerChar
  split
  · rw [toNat_ofNat_valid (by omega)]
  · rfl

theorem toNat_upperChar (c : Char) : (upperChar c).toNat =
    if 97 ≤ c.toNat ∧ c.toNat ≤ 122 then c.toNat - 32 else c.toNat := by
  unfold upperChar
  split
  · rw [toNat_ofNat_valid (by omega)]
  · rfl

theorem lowerChar_lowerChar (c : Char) :
    lowerChar (lowerChar c) = lowerChar c := by
  apply charEq_of_toNat
  simp only [toNat_lowerChar]
  split_ifs <;> omega

theorem lowerChar_upperChar (c : Char) :
    lowerChar (upperChar c) = lowerChar c := by
  apply charEq_of_toNat
  simp only [toNat_lowerChar, toNat_upperChar]
  split_ifs <;> omega

theorem upperChar_upperChar (c : Char) :
    upperChar (upperChar c) = upperChar c := by
  apply charEq_of_toNat
  simp only [toNat_upperChar]
  split_ifs <;> omega

theorem casedChar_lowerChar (c : Char) :
    casedChar (lowerChar c) = casedChar c := by
  simp only [casedChar, toNat_lowerChar]
  rw [Bool.eq_iff_iff]
  simp only [Bool.or_eq_true, decide_eq_true_eq]
  split_ifs <;> omega

theorem casedChar_upperChar (c : Char) :
    casedChar (upperChar c) = casedChar c := by
  simp only [casedChar, toNat_upperChar]
  rw [Bool.eq_iff_iff]
  simp only [Bool.or_eq_true, decide_eq_true_eq]
  split_ifs <;> omega

theorem titleList_length (b : Bool) (l : List Char) :
    (titleList b l).length = l.length := by
  induction l generalizing b with
  | nil => rfl
  | cons c cs ih => simp [titleList, ih]

theorem map_lowerChar_titleList (b : Bool) (l : List Char) :
    (titleList b l).map lowerChar = l.map lowerChar := by
  induction l generalizing b with
  | nil => rfl
  | cons c cs ih =>
    simp only [titleList, List.map_cons, ih]
    split_ifs <;> simp [lowerChar_lowerChar, lowerChar_upperChar]

theorem titleList_titleList (b : Bool) (l : List Char) :
    titleList b (titleList b l) = titleList b l := by
  induction l generalizing b with
  | nil => rfl
  | cons c cs ih =>
    by_cases hc : casedChar c = true
    · by_cases hb : b = true
      · simp only [titleList, hc, hb, if_true, casedChar_lowerChar,
          lowerChar_lowerChar, ih]
      · simp only [Bool.not_eq_true] at hb
        simp only [titleList, hc, hb, if_true, Bool.false_eq_true, if_false,
          casedChar_upperChar, upperChar_upperChar, ih]
    · simp only [Bool.not_eq_true] at hc
      simp only [titleList, hc, Bool.false_eq_true, if_false, ih]

theorem pyLower_pyTitle (s : String) : pyLower (pyTitle s) = pyLower s :=
  congrArg String.mk (map_lowerChar_titleList false s.data)

theorem pyTitle_pyTitle (s : String) : pyTitle (pyTitle s) = pyTitle s :=
  congrArg String.mk (titleList_titleList false s.data)

theorem stringMk_eq_empty {l : List Char} : (⟨l⟩ : String) = "" ↔ l = [] :=
  ⟨fun h => congrArg String.data h, fun h => by rw [h]⟩

theorem pyTitle_eq_empty (s : String) : pyTitle s = "" ↔ s = "" := by
  constructor
  · intro h
    obtain ⟨data⟩ := s
    cases data with
    | nil => rfl
    | cons c cs =>
      have hd : ("" : String).data = titleList false (c :: cs) :=
        congrArg String.data h.symm
      simp [titleList] at hd
  · intro h
    rw [h]
    rfl

theorem dropWhile_dropWhile_self (p : Char → Bool) (l : List Char) :
    (l.dropWhile p).dropWhile p = l.dropWhile p := by
  induction l with
  | nil => rfl
  | cons c cs ih =>
    by_cases h : p c
    · simp [List.dropWhile_cons, h, ih]
    · simp [List.dropWhile_cons, h]

theorem head_dropWhile_false (p : Char → Bool) (l : List Char) {c : Char}
    (h : (l.dropWhile p).head? = some c) : p c = false := by
  induction l with
  | nil => simp at h
  | cons a as ih =>
    by_cases hp : p a
    · rw [List.dropWhile_cons, if_pos hp] at h
      exact ih h
    · rw [List.dropWhile_cons, if_neg hp] at h
      simp only [List.head?_cons, Option.some.injEq] at h
      subst h
      exact Bool.not_eq_true _ ▸ hp

theorem dropWhile_eq_self_of_head (p : Char → Bool) (l : List Char)
    (h : ∀ c, l.head? = some c → p c = false) : l.dropWhile p = l := by
  cases l with
  | nil => rfl
  | cons a as =>
    rw [List.dropWhile_cons, if_neg]
    simp [h a rfl]

theorem stripList_stripList (l : List Char) :
    stripList (stripList l) = stripList l := by
  have hmrev : (stripList l).reverse =
      (l.dropWhile pySpaceChar).reverse.dropWhile pySpaceChar := by
    unfold stripList
    rw [List.reverse_reverse]
  have hstep1 : (stripList l).dropWhile pySpaceChar = stripList l := by
    apply dropWhile_eq_self_of_head
    intro c hc
    obtain ⟨t, ht⟩ :=
      List.dropWhile_suffix (l := (l.dropWhile pySpaceChar).reverse) pySpaceChar
    have hk : l.dropWhile pySpaceChar = stripList l ++ t.reverse := by
      have h2 := congrArg List.reverse ht
      simpa [stripList] using h2.symm
    have hk_head : (l.dropWhile pySpaceChar).head? = some c := by
      rw [hk]
      cases hsl : stripList l with
      | nil =>
        rw [hsl] at hc
        simp at hc
      | cons a as =>
        rw [hsl] at hc
        simp only [List.head?_cons, Option.some.injEq] at hc
        simp [hc]
    exact head_dropWhile_false pySpaceChar l hk_head
  calc stripList (stripList l)
      = (((stripList l).dropWhile pySpaceChar).reverse.dropWhile
          pySpaceChar).reverse := rfl
    _ = ((stripList l).reverse.dropWhile pySpaceChar).reverse := by
        rw [hstep1]
    _ = (((l.dropWhile pySpaceChar).reverse.dropWhile pySpaceChar).dropWhile
          pySpaceChar).reverse := by rw [hmrev]
    _ = ((l.dropWhile pySpaceChar).reverse.dropWhile pySpaceChar).reverse := by
        rw [dropWhile_dropWhile_self]
    _ = stripList l := rfl

theorem pyStrip_pyStrip (s : String) : pyStrip (pyStrip s) = pyStrip s :=
  congrArg String.mk (stripList_stripList s.data)

theorem dictGet_mem {m : List (String × String)} {k v : String}
    (h : dictGet m k = some v) : v ∈ m.map Prod.snd := by
  unfold dictGet at h
  cases hf : m.reverse.find? (fun p => p.1 == k) with
  | none =>
    rw [hf] at h
    simp at h
  | some p =>
    rw [hf] at h
    simp at h
    have hp := List.mem_of_find?_eq_some hf
    rw [List.mem_reverse] at hp
    rw [← h]
    exact List.mem_map_of_mem Prod.snd hp

/-- C1: `get_automatic_tags` is claimed total, de-duplicating, and marking
`Subscriptions` rows "recurring"; in the code every call raises TypeError at
the guard `category == "Groceries" | category == "Dining"` (line 490 of
src/app/constants.py), since `|` binds tighter than `==` and is unsupported
on strings, so the function never returns at all. -/
theorem c1_get_automatic_tags_always_raises :
    ∀ (store category : String) (amount : Rat) (description : String),
      get_automatic_tags store category amount description =
        Except.error
          "TypeError: unsupported operand type(s) for |: 'str' and 'str'" :=
  fun _ _ _ _ => rfl

/-- C5 counterexample: at the empty string the claimed equivalence fails:
`is_valid_category ""` is `false` (the early `if not category` return), yet
`normalize_category ""` is `"Other Expense"`, a member of `ALL_CATEGORIES`. -/
theorem c5_empty_string_counterexample :
    is_valid_category "" = false ∧ normalize_category "" ∈ ALL_CATEGORIES := by
  constructor
  · rfl
  · decide

/-- C5 amended: for every nonempty category string, `is_valid_category`
returns true iff `normalize_category` of it lies in `ALL_CATEGORIES`; the
empty string is special-cased to false before normalization is consulted. -/
theorem c5_valid_iff_normalized_member :
    ∀ category : String, category ≠ "" →
      (is_valid_category category = true ↔
        normalize_category category ∈ ALL_CATEGORIES) := by
  intro c hc
  unfold is_valid_category
  rw [if_neg hc]
  exact List.elem_iff

/-- C5 witness: the amended equivalence evaluated at "Dining". -/
theorem c5_valid_iff_witness :
    is_valid_category "Dining" = true ↔
      normalize_category "Dining" ∈ ALL_CATEGORIES :=
  c5_valid_iff_normalized_member "Dining" (by decide)

/-- C10 counterexample: an empty dict is not `None`, but `if column_mapping:`
is false for it, so `parse_csv` with `column_mapping = {}` and
`bank_type = "sofi"` runs the SoFi parser and reports format "sofi", not
"generic" (and not the generic parser's result, which here is the
missing-date-column error). -/
theorem c10_empty_mapping_counterexample :
    parse_csv floatOfString dateOfString ⟨"", []⟩ (some "sofi") (some []) =
      Except.ok ("sofi", []) ∧
    (parse_generic_csv floatOfString dateOfString [] []).map
      (fun ts => ("generic", ts)) =
      (Except.error "Date column is required" :
        Except String (String × List Transaction)) := by
  constructor
  · decide
  · decide

/-- C10 amended: whenever the supplied `column_mapping` is truthy (non-empty,
not only non-None), `parse_csv` returns format "generic" and the output of
`parse_generic_csv` on that mapping, and the `bank_type` argument has no
effect. -/
theorem c10_truthy_mapping_takes_priority :
    ∀ (pf : String → Option Rat) (pd : String → Option Nat)
      (content : CSVContent) (bank_type : Option String) (m : ColumnMapping),
      cmTruthy m = true →
      parse_csv pf pd content bank_type (some m) =
        (parse_generic_csv pf pd m content.rows).map
          (fun ts => ("generic", ts)) := by
  intro pf pd content bt m hm
  simp [parse_csv, hm]

/-- C10 witness: the amended statement evaluated on a one-entry mapping and
an explicit conflicting `bank_type = "sofi"`. -/
theorem c10_truthy_mapping_witness :
    parse_csv floatOfString dateOfString ⟨"", []⟩ (some "sofi")
        (some [("date_column", CMVal.str "D")]) =
      (parse_generic_csv floatOfString dateOfString
        [("date_column", CMVal.str "D")] []).map (fun ts => ("generic", ts)) :=
  c10_truthy_mapping_takes_priority floatOfString dateOfString ⟨"", []⟩
    (some "sofi") [("date_column", CMVal.str "D")] (by decide)

/-- C6: `normalize_store` maps an input to the empty string exactly when the
trimmed input is empty (blank input): a rule hit returns a nonempty table
value, structural cleanup falls back to title-casing the original trimmed
input when it erases everything, and title-casing preserves nonemptiness. -/
theorem c6_normalize_store_empty_iff :
    ∀ store : String, normalize_store store = "" ↔ pyStrip store = "" := by
  intro s
  by_cases hs : s = ""
  · subst hs
    constructor <;> intro <;> rfl
  · constructor
    · intro h
      by_contra hne
      simp only [normalize_store] at h
      rw [if_neg hs] at h
      rcases hexact : dictGet STORE_EXACT_MATCH (pyLower (pyStrip s)) with _ | v
      · rcases hpat : STORE_PATTERNS.find?
            (fun p => pyContains (pyLower (pyStrip s)) p.1) with _ | p
        · rw [hexact, hpat] at h
          simp only [] at h
          split at h
          · rename_i hguard
            rw [pyTitle_eq_empty, stringMk_eq_empty] at h
            exact hguard h
          · rw [pyTitle_eq_empty] at h
            exact hne h
        · rw [hexact, hpat] at h
          simp only [] at h
          exact (by decide : ∀ q ∈ STORE_PATTERNS, q.2 ≠ "") p
            (List.mem_of_find?_eq_some hpat) h
      · rw [hexact] at h
        simp only [] at h
        exact (by decide : ∀ u ∈ STORE_EXACT_MATCH.map Prod.snd, u ≠ "") v
          (dictGet_mem hexact) h
    · intro h
      simp only [normalize_store]
      rw [if_neg hs, h]
      decide

theorem ifSome_mem {p : Prop} [Decidable p] {x c : String}
    {rest : Option String} {vs : List String} (hx : x ∈ vs)
    (hrest : rest = some c → c ∈ vs) :
    (if p then some x else rest) = some c → c ∈ vs := by
  intro h
  by_cases hp : p
  · rw [if_pos hp] at h
    exact Option.some.inj h ▸ hx
  · rw [if_neg hp] at h
    exact hrest h

theorem categorize_by_store_cases :
    ∀ s c, categorize_by_store s = some c →
      c ∈ ["Groceries", "Dining", "Gas & Auto", "Subscriptions", "Shopping",
        "Health & Fitness", "Utilities", "Travel", "Entertainment"] := by
  intro s c
  simp only [categorize_by_store]
  refine ifSome_mem (by decide) ?_
  refine ifSome_mem (by decide) ?_
  refine ifSome_mem (by decide) ?_
  refine ifSome_mem (by decide) ?_
  refine ifSome_mem (by decide) ?_
  refine ifSome_mem (by decide) ?_
  refine ifSome_mem (by decide) ?_
  refine ifSome_mem (by decide) ?_
  refine ifSome_mem (by decide) ?_
  refine ifSome_mem (by decide) ?_
  exact fun h => nomatch h

theorem categorize_by_keywords_cases :
    ∀ d ty c, categorize_by_keywords d ty = some c →
      c ∈ ["Interest", "Salary", "Rent", "Utilities", "Student Loan",
        "Car Payment"] := by
  intro d ty c
  simp only [categorize_by_keywords]
  refine ifSome_mem (by decide) ?_
  refine ifSome_mem (by decide) ?_
  refine ifSome_mem (by decide) ?_
  refine ifSome_mem (by decide) ?_
  refine ifSome_mem (by decide) ?_
  refine ifSome_mem (by decide) ?_
  exact fun h => nomatch h

/-- C8: round-trip — every category the classifier can emit (a store-rule
category, a keyword-rule category, or the fallback "Other Expense") is a
fixed point of `normalize_category`. -/
theorem c8_classifier_roundtrip :
    ∀ store description transaction_type : String,
      normalize_category (suggest_category store description transaction_type)
        = suggest_category store description transaction_type := by
  intro s d ty
  unfold suggest_category
  cases hs : categorize_by_store s with
  | some c =>
    exact (by decide :
      ∀ u ∈ ["Groceries", "Dining", "Gas & Auto", "Subscriptions", "Shopping",
        "Health & Fitness", "Utilities", "Travel", "Entertainment"],
        normalize_category u = u) c (categorize_by_store_cases s c hs)
  | none =>
    cases hk : categorize_by_keywords d ty with
    | some c =>
      exact (by decide : ∀ u ∈ ["Interest", "Salary", "Rent", "Utilities",
        "Student Loan", "Car Payment"], normalize_category u = u) c
        (categorize_by_keywords_cases d ty c hk)
    | none => decide

/-- C9: `normalize_category` is idempotent: the empty-input default and every
synonym-table value are fixed points, a canonical-set hit returns a member
whose lookup key is unchanged by a second pass, and the title-cased
pass-through is stable because lowering then stripping commutes with
title-casing and title-casing is itself idempotent. -/
theorem c9_normalize_category_idem :
    ∀ x : String,
      normalize_category (normalize_category x) = normalize_category x := by
  intro x
  by_cases hx : x = ""
  · subst hx
    decide
  · rcases hdict : dictGet CATEGORY_MAPPING (pyStrip (pyLower x)) with _ | v
    · rcases hfind : ALL_CATEGORIES.find?
          (fun std => pyStrip (pyLower x) == pyLower std) with _ | std
      · have hx1 : normalize_category x = pyTitle x := by
          simp only [normalize_category]
          rw [if_neg hx, hdict, hfind]
        rw [hx1]
        have hne : pyTitle x ≠ "" := fun hcon => hx ((pyTitle_eq_empty x).mp hcon)
        have hkey2 : pyStrip (pyLower (pyTitle x)) = pyStrip (pyLower x) := by
          rw [pyLower_pyTitle]
        simp only [normalize_category]
        rw [if_neg hne, hkey2, hdict, hfind, pyTitle_pyTitle]
      · have heq : pyStrip (pyLower x) = pyLower std := by
          have hp := List.find?_some hfind
          simpa using hp
        have hx1 : normalize_category x = std := by
          simp only [normalize_category]
          rw [if_neg hx, hdict, hfind]
        rw [hx1]
        have hstdne : std ≠ "" :=
          (by decide : ∀ u ∈ ALL_CATEGORIES, u ≠ "") std
            (List.mem_of_find?_eq_some hfind)
        have hkey2 : pyStrip (pyLower std) = pyStrip (pyLower x) := by
          rw [← heq, pyStrip_pyStrip]
        simp only [normalize_category]
        rw [if_neg hstdne, hkey2, hdict, hfind]
    · have hx1 : normalize_category x = v := by
        simp only [normalize_category]
        rw [if_neg hx, hdict]
      rw [hx1]
      exact (by decide : ∀ u ∈ CATEGORY_MAPPING.map Prod.snd,
        normalize_category u = u) v (dictGet_mem hdict)

theorem parseSofiRow_amount_nonneg {pf : String → Option Rat}
    {pd : String → Option Nat} {row : Row} {t : Transaction}
    (h : parseSofiRow pf pd row = some t) : 0 ≤ t.amount := by
  simp only [parseSofiRow] at h
  split at h
  · exact absurd h (by simp)
  · split at h
    · exact absurd h (by simp)
    · split at h
      · exact absurd h (by simp)
      · have ht := Option.some.inj h
        subst ht
        dsimp only
        split
        · exact abs_nonneg _
        · exact le_of_not_lt (by assumption)

theorem parseSofiRow_store_eq {pf : String → Option Rat}
    {pd : String → Option Nat} {row : Row} {t : Transaction}
    (h : parseSofiRow pf pd row = some t) :
    t.store = normalize_store (pyStrip (rowGetD row "Description" "")) := by
  simp only [parseSofiRow] at h
  split at h
  · exact absurd h (by simp)
  · split at h
    · exact absurd h (by simp)
    · split at h
      · exact absurd h (by simp)
      · have ht := Option.some.inj h
        subst ht
        rfl

/-- C7: sign-authority in the SoFi parser — a posted row whose raw amount
parses to a negative value is always emitted with `type = "expense"` and
`amount = abs(raw)`, whatever the keyword classifier suggested from the
description. -/
theorem c7_sofi_sign_authority :
    ∀ (pf : String → Option Rat) (pd : String → Option Nat) (row : Row)
      (a : Rat) (d : Nat),
      pyLower (pyStrip (rowGetD row "Status" "")) = "posted" →
      pf (cleanAmount (pyStrip (rowGetD row "Amount" "0"))) = some a →
      a < 0 →
      pd (pyStrip (rowGetD row "Date" "")) = some d →
      ∃ t, parseSofiRow pf pd row = some t ∧
        parse_sofi_csv pf pd [row] "savings" = [t] ∧
        t.type = "expense" ∧ t.amount = abs a := by
  intro pf pd row a d hstatus hpf ha hpd
  have hne : ¬(pyLower (pyStrip (rowGetD row "Status" "")) ≠ "posted") :=
    fun hcon => hcon hstatus
  simp only [parse_sofi_csv, List.filterMap_cons, List.filterMap_nil,
    parseSofiRow, if_neg hne, hpf, hpd, if_pos ha]
  exact ⟨_, rfl, rfl, rfl, rfl⟩

/-- C7 witness: the sign-authority conclusion evaluated on a concrete posted
row with amount "-4.50" and a dining-keyword description. -/
theorem c7_sofi_sign_authority_witness :
    ∃ t, parseSofiRow floatOfString dateOfString
        [("Date", "2024-01-02"), ("Description", "STARBUCKS #123"),
          ("Type", "Debit Card"), ("Amount", "-4.50"),
          ("Current balance", "100.00"), ("Status", "Posted")] = some t ∧
      parse_sofi_csv floatOfString dateOfString
        [[("Date", "2024-01-02"), ("Description", "STARBUCKS #123"),
          ("Type", "Debit Card"), ("Amount", "-4.50"),
          ("Current balance", "100.00"), ("Status", "Posted")]] "savings" =
        [t] ∧
      t.type = "expense" ∧ t.amount = abs (ratOfScaled (-450) 100) :=
  c7_sofi_sign_authority floatOfString dateOfString
    [("Date", "2024-01-02"), ("Description", "STARBUCKS #123"),
      ("Type", "Debit Card"), ("Amount", "-4.50"),
      ("Current balance", "100.00"), ("Status", "Posted")]
    (ratOfScaled (-450) 100) 20240102 (by decide) (by decide) (by decide)
    (by decide)

/-- C3 counterexample: a posted SoFi row with Description "Interest earned"
is categorized "Interest", but its store is the normalized description
"Interest Earned", not the institution's own name "SoFi" — no forcing of the
store happens anywhere in `parse_sofi_csv`. -/
theorem c3_interest_store_counterexample :
    (parse_sofi_csv floatOfString dateOfString
        [[("Date", "2024-01-02"), ("Description", "Interest earned"),
          ("Type", "Credit"), ("Amount", "1.23"),
          ("Current balance", "100.00"), ("Status", "Posted")]]
        "savings").map Transaction.suggested_category = ["Interest"] ∧
    (parse_sofi_csv floatOfString dateOfString
        [[("Date", "2024-01-02"), ("Description", "Interest earned"),
          ("Type", "Credit"), ("Amount", "1.23"),
          ("Current balance", "100.00"), ("Status", "Posted")]]
        "savings").map Transaction.store = ["Interest Earned"] ∧
    ("Interest Earned" : String) ≠ "SoFi" := by
  refine ⟨by decide, by decide, by decide⟩

/-- C3 amended: in the SoFi parser the store of every emitted transaction —
Interest-categorized ones included — is `normalize_store` of the trimmed
Description cell; the institution name is never substituted. -/
theorem c3_sofi_store_always_normalized_description :
    ∀ (pf : String → Option Rat) (pd : String → Option Nat) (row : Row)
      (t : Transaction),
      parseSofiRow pf pd row = some t →
      t.store = normalize_store (pyStrip (rowGetD row "Description" "")) := by
  intro pf pd row t h
  exact parseSofiRow_store_eq h

/-- C3 witness: the amended statement evaluated on the Interest row. -/
theorem c3_sofi_store_witness :
    Transaction.store
        ⟨20240102, "Interest Earned", "", "Credit", ratOfScaled 123 100,
          "income", "Interest"⟩ =
      normalize_store (pyStrip (rowGetD
        [("Date", "2024-01-02"), ("Description", "Interest earned"),
          ("Type", "Credit"), ("Amount", "1.23"),
          ("Current balance", "100.00"), ("Status", "Posted")]
        "Description" "")) :=
  c3_sofi_store_always_normalized_description floatOfString dateOfString
    [("Date", "2024-01-02"), ("Description", "Interest earned"),
      ("Type", "Credit"), ("Amount", "1.23"),
      ("Current balance", "100.00"), ("Status", "Posted")]
    ⟨20240102, "Interest Earned", "", "Credit", ratOfScaled 123 100,
      "income", "Interest"⟩
    (by decide)

theorem parseGenericRow_amount_nonneg {pf : String → Option Rat}
    {pd : String → Option Nat}
    {date_col amount_col debit_col credit_col store_col description_col
      use_two : CMVal} {row : Row} {t : Transaction}
    (hu : use_two.truthy = false)
    (h : parseGenericRow pf pd date_col amount_col debit_col credit_col
      store_col description_col use_two row = some t) : 0 ≤ t.amount := by
  simp only [parseGenericRow, hu, Bool.false_eq_true, if_false] at h
  split at h
  · exact absurd h (by simp)
  · split at h
    · exact absurd h (by simp)
    · split at h
      · exact absurd h (by simp)
      · rename_i pair hpair
        have ht := Option.some.inj h
        subst ht
        dsimp only
        split at hpair
        · exact absurd hpair (by simp)
        · split at hpair
          · exact absurd hpair (by simp)
          · rcases Option.map_eq_some'.mp hpair with ⟨a, hpf, hfn⟩
            split at hfn
            · injection hfn with h1 h2
              rw [← h1]
              exact abs_nonneg a
            · injection hfn with h1 h2
              rw [← h1]
              exact le_of_not_lt (by assumption)

/-- C2 counterexample: the Capital One parser copies the Debit cell's parsed
value into the output unchanged, so a row with Debit "-5.00" is emitted with
the negative amount -5 (typed "expense"), violating the claimed
non-negativity for every parser. -/
theorem c2_capital_one_negative_debit_counterexample :
    (parse_capital_one_csv floatOfString dateOfString
        [[("Transaction Date", "2024-01-02"), ("Description", "zzz"),
          ("Category", ""), ("Debit", "-5.00"), ("Credit", "")]]).map
      Transaction.amount = [-5] ∧
    (parse_capital_one_csv floatOfString dateOfString
        [[("Transaction Date", "2024-01-02"), ("Description", "zzz"),
          ("Category", ""), ("Debit", "-5.00"), ("Credit", "")]]).map
      Transaction.type = ["expense"] ∧
    ((-5 : Rat) < 0) := by
  refine ⟨by decide, by decide, by decide⟩

/-- C2 amended: amounts are non-negative, with the sign consumed into the
type, for the SoFi parser and for the generic parser in single-amount-column
mode (`use_two_columns` falsy); the Capital One parser and the two-column
generic mode instead carry the debit/credit cell value unchanged, so a
negative cell value there flows through (see the counterexample). -/
theorem c2_sofi_and_single_column_amounts_nonneg :
    ∀ (pf : String → Option Rat) (pd : String → Option Nat),
      (∀ (rows : List Row) (acct : String) (t : Transaction),
        t ∈ parse_sofi_csv pf pd rows acct → 0 ≤ t.amount) ∧
      (∀ (m : ColumnMapping) (rows : List Row) (l : List Transaction)
          (t : Transaction),
        (cmGetD m "use_two_columns" (CMVal.bool false)).truthy = false →
        parse_generic_csv pf pd m rows = Except.ok l →
        t ∈ l → 0 ≤ t.amount) := by
  intro pf pd
  constructor
  · intro rows acct t ht
    simp only [parse_sofi_csv] at ht
    obtain ⟨row, _, hrow⟩ := List.mem_filterMap.mp ht
    exact parseSofiRow_amount_nonneg hrow
  · intro m rows l t hu hok ht
    simp only [parse_generic_csv] at hok
    split at hok
    · exact absurd hok (by simp)
    · have hl := Except.ok.inj hok
      rw [← hl] at ht
      obtain ⟨row, _, hrow⟩ := List.mem_filterMap.mp ht
      exact parseGenericRow_amount_nonneg hu hrow

/-- C2 witness: the SoFi branch of the amended statement evaluated on a
posted row with amount "-4.50", whose emitted transaction carries 4.50. -/
theorem c2_nonneg_witness :
    0 ≤ Transaction.amount
      ⟨20240102, "Starbucks", "", "Debit Card", ratOfScaled 450 100,
        "expense", "Dining"⟩ :=
  (c2_sofi_and_single_column_amounts_nonneg floatOfString dateOfString).1
    [[("Date", "2024-01-02"), ("Description", "STARBUCKS #123"),
      ("Type", "Debit Card"), ("Amount", "-4.50"),
      ("Current balance", "100.00"), ("Status", "Posted")]] "savings"
    ⟨20240102, "Starbucks", "", "Debit Card", ratOfScaled 450 100,
      "expense", "Dining"⟩
    (by decide)

theorem rowGetV_congr {r r' : Row} {c : String}
    (hagree : ∀ k, k ≠ c → rowFind? r k = rowFind? r' k)
    (col : CMVal) (hcol : col ≠ CMVal.str c) (d : String) :
    rowGetV r col d = rowGetV r' col d := by
  cases col with
  | str s =>
    have hs : s ≠ c := fun hsc => hcol (by rw [hsc])
    show (rowFind? r s).getD d = (rowFind? r' s).getD d
    rw [hagree s hs]
  | null => rfl
  | bool b => rfl

theorem rowHasV_congr {r r' : Row} {c : String}
    (hagree : ∀ k, k ≠ c → rowFind? r k = rowFind? r' k)
    (col : CMVal) (hcol : col ≠ CMVal.str c) :
    rowHasV r col = rowHasV r' col := by
  cases col with
  | str s =>
    have hs : s ≠ c := fun hsc => hcol (by rw [hsc])
    show (rowFind? r s).isSome = (rowFind? r' s).isSome
    rw [hagree s hs]
  | null => rfl
  | bool b => rfl

theorem parseGenericRow_congr {pf : String → Option Rat}
    {pd : String → Option Nat}
    {date_col amount_col debit_col credit_col store_col description_col
      use_two : CMVal} {c : String} {r r' : Row}
    (hagree : ∀ k, k ≠ c → rowFind? r k = rowFind? r' k)
    (hd : date_col ≠ CMVal.str c) (ha : amount_col ≠ CMVal.str c)
    (hdb : debit_col ≠ CMVal.str c) (hcr : credit_col ≠ CMVal.str c)
    (hs : store_col ≠ CMVal.str c) (hde : description_col ≠ CMVal.str c) :
    parseGenericRow pf pd date_col amount_col debit_col credit_col store_col
      description_col use_two r =
    parseGenericRow pf pd date_col amount_col debit_col credit_col store_col
      description_col use_two r' := by
  simp only [parseGenericRow]
  rw [rowGetV_congr hagree date_col hd "",
    rowGetV_congr hagree debit_col hdb "",
    rowGetV_congr hagree credit_col hcr "",
    rowGetV_congr hagree amount_col ha "",
    rowGetV_congr hagree store_col hs "",
    rowGetV_congr hagree description_col hde "",
    rowHasV_congr hagree store_col hs,
    rowHasV_congr hagree description_col hde]

/-- C4 counterexample: in the Capital One parser the bank's Category cell is
passed to the keyword classifier as the transaction-type hint, whose
`'interest' in type_lower` test reads it — two inputs identical except for
the Category value get different suggested categories. -/
theorem c4_capital_one_category_counterexample :
    (parse_capital_one_csv floatOfString dateOfString
        [[("Transaction Date", "2024-01-02"), ("Description", "zzz"),
          ("Debit", "5.00"), ("Credit", ""), ("Category", "interest")]]).map
      Transaction.suggested_category = ["Interest"] ∧
    (parse_capital_one_csv floatOfString dateOfString
        [[("Transaction Date", "2024-01-02"), ("Description", "zzz"),
          ("Debit", "5.00"), ("Credit", ""), ("Category", "")]]).map
      Transaction.suggested_category = ["Other Expense"] := by
  refine ⟨by decide, by decide⟩

/-- C4 amended: noninterference of the source category column holds for the
generic parser — it never reads the row values under the column named by
`category_column` (provided that column is not doubling as one of the used
roles), so two row lists agreeing outside that column parse identically; in
the Capital One parser the Category value feeds the keyword classifier's
type hint and can change `suggested_category` (see the counterexample). -/
theorem c4_generic_category_noninterference :
    ∀ (pf : String → Option Rat) (pd : String → Option Nat)
      (m : ColumnMapping) (c : String) (rows rows' : List Row),
      cmGet m "category_column" = CMVal.str c →
      cmGet m "date_column" ≠ CMVal.str c →
      cmGet m "amount_column" ≠ CMVal.str c →
      cmGet m "debit_column" ≠ CMVal.str c →
      cmGet m "credit_column" ≠ CMVal.str c →
      cmGet m "store_column" ≠ CMVal.str c →
      cmGet m "description_column" ≠ CMVal.str c →
      List.Forall₂
        (fun r r' : Row => ∀ k, k ≠ c → rowFind? r k = rowFind? r' k)
        rows rows' →
      parse_generic_csv pf pd m rows = parse_generic_csv pf pd m rows' := by
  intro pf pd m c rows rows' hcat hd ha hdb hcr hs hde hrows
  simp only [parse_generic_csv]
  split
  · rfl
  · congr 1
    induction hrows with
    | nil => rfl
    | cons hpair htail ih =>
      simp only [List.filterMap_cons]
      rw [parseGenericRow_congr hpair hd ha hdb hcr hs hde, ih]

/-- C4 witness: the noninterference conclusion evaluated on two one-row
inputs that differ only in the "C" (category) column. -/
theorem c4_noninterference_witness :
    parse_generic_csv floatOfString dateOfString
        [("date_column", CMVal.str "D"), ("amount_column", CMVal.str "A"),
          ("category_column", CMVal.str "C")]
        [[("D", "2024-01-05"), ("A", "7.00"), ("C", "x")]] =
      parse_generic_csv floatOfString dateOfString
        [("date_column", CMVal.str "D"), ("amount_column", CMVal.str "A"),
          ("category_column", CMVal.str "C")]
        [[("D", "2024-01-05"), ("A", "7.00"), ("C", "y")]] := by
  refine c4_generic_category_noninterference floatOfString dateOfString
    [("date_column", CMVal.str "D"), ("amount_column", CMVal.str "A"),
      ("category_column", CMVal.str "C")] "C"
    [[("D", "2024-01-05"), ("A", "7.00"), ("C", "x")]]
    [[("D", "2024-01-05"), ("A", "7.00"), ("C", "y")]]
    (by decide) (by decide) (by decide) (by decide) (by decide) (by decide)
    (by decide) ?_
  refine List.Forall₂.cons ?_ List.Forall₂.nil
  intro k hk
  rcases eq_or_ne k "D" with rfl | h1
  · rfl
  rcases eq_or_ne k "A" with rfl | h2
  · rfl
  have e1 : (("D" : String) == k) = false := beq_eq_false_iff_ne.mpr (Ne.symm h1)
  have e2 : (("A" : String) == k) = false := beq_eq_false_iff_ne.mpr (Ne.symm h2)
  have e3 : (("C" : String) == k) = false := beq_eq_false_iff_ne.mpr (Ne.symm hk)
  simp [rowFind?, List.find?, e1, e2, e3]
